import Mathlib

/-!
Shallow embedding of the ollamate conversation-state manager
(App.tsx `initializeDatabase`, `loadConversations`, `handleNewChat`,
`handleDeleteConversation`, the SettingsPage upsert, and ChatPage.tsx
`loadHistoryFromDb` / `handleSubmit`) over an explicit SQLite-store state.

Modelling conventions:
- The store state records, besides the rows of the three tables, which
  schema objects exist (tables, the `conversation_id` column, the index),
  so that the `CREATE ... IF NOT EXISTS` / `ALTER TABLE` bootstrap can be
  stated faithfully.
- Store-assigned timestamps (`DATETIME DEFAULT CURRENT_TIMESTAMP`) and
  `created_at` values are modelled by strictly monotone counters, matching
  the invariant that insertion order and timestamp order coincide; real
  clock granularity is abstracted away.
- Every fallible `db.execute` / `db.select` / `invoke` call is modelled by
  an explicit outcome: schema-determined errors (duplicate column, CHECK
  violation) arise from the state, environmental failures are injected
  through fault parameters.
- `ORDER BY` is modelled by an insertion sort over the row list.
-/

namespace Ollamate

/-- A row of the `chat_messages` table. `conversation_id` may be NULL for
rows created before conversation scoping existed. The `timestamp` is the
monotone insertion counter. -/
structure MsgRow where
  id : Nat
  role : String
  content : String
  conversation_id : Option Nat
  timestamp : Nat
deriving DecidableEq, Repr

/-- A row of the `conversations` table. -/
structure ConvRow where
  id : Nat
  name : String
  created_at : Nat
deriving DecidableEq, Repr

/-- The persisted SQLite store: schema objects present, table contents and
the autoincrement/clock counters. -/
structure DBState where
  hasConversationsTable : Bool
  hasSettingsTable : Bool
  hasMessagesTable : Bool
  hasConversationIdColumn : Bool
  hasConversationIdIndex : Bool
  conversations : List ConvRow
  chat_messages : List MsgRow
  settings : List (String × String)
  nextConvId : Nat
  nextMsgId : Nat
deriving DecidableEq, Repr

/-- Outcome of one `db.execute` call: success with the new state, or a
thrown error message. -/
inductive ExecResult where
  | ok (s : DBState)
  | err (msg : String)
deriving DecidableEq, Repr

/-- True when the call succeeded. -/
def ExecResult.isOk : ExecResult → Bool
  | .ok _ => true
  | .err _ => false

/-- The state of a successful call, or the fallback `d`. -/
def ExecResult.getD (r : ExecResult) (d : DBState) : DBState :=
  match r with
  | .ok s => s
  | .err _ => d

/-- A store with nothing in it yet (no schema objects, no rows). -/
def emptyDB : DBState :=
  { hasConversationsTable := false
    hasSettingsTable := false
    hasMessagesTable := false
    hasConversationIdColumn := false
    hasConversationIdIndex := false
    conversations := []
    chat_messages := []
    settings := []
    nextConvId := 1
    nextMsgId := 1 }

/-- Substring containment, the model of the JavaScript
`String.prototype.includes` used on error messages. -/
def strContains (hay needle : String) : Bool :=
  let h := hay.toList
  let n := needle.toList
  (List.range (h.length + 1)).any (fun i => n = (h.drop i).take n.length)

/-- The settings key used for the global system prompt. -/
def globalSystemPromptKey : String := "global_system_prompt"

/-- The built-in default system prompt. -/
def defaultSystemPrompt : String := "You are a helpful assistant."

/-- Stable insertion of one element, helper of the ORDER BY model. -/
def inssort {α : Type} (le : α → α → Bool) (a : α) : List α → List α
  | [] => [a]
  | b :: bs => if le b a then b :: inssort le a bs else a :: b :: bs

/-- Insertion sort, the model of SQL ORDER BY with comparator `le`. -/
def sortBy {α : Type} (le : α → α → Bool) : List α → List α
  | [] => []
  | x :: xs => inssort le x (sortBy le xs)

/-- CREATE TABLE IF NOT EXISTS conversations: no-op when the table exists,
otherwise creates it empty. -/
def createConversationsTable (s : DBState) : DBState :=
  if s.hasConversationsTable then s
  else { s with hasConversationsTable := true, conversations := [], nextConvId := 1 }

/-- CREATE TABLE IF NOT EXISTS settings. -/
def createSettingsTable (s : DBState) : DBState :=
  if s.hasSettingsTable then s
  else { s with hasSettingsTable := true, settings := [] }

/-- CREATE TABLE IF NOT EXISTS chat_messages (without `conversation_id`,
which is added by the later ALTER TABLE migration): a freshly created
table has neither the conversation_id column nor the index on it. -/
def createMessagesTable (s : DBState) : DBState :=
  if s.hasMessagesTable then s
  else { s with hasMessagesTable := true, chat_messages := [], nextMsgId := 1,
                hasConversationIdColumn := false, hasConversationIdIndex := false }

/-- ALTER TABLE chat_messages ADD COLUMN conversation_id: fails with the
SQLite duplicate-column error when the column already exists. -/
def alterAddConversationId (s : DBState) : ExecResult :=
  if s.hasConversationIdColumn then .err "duplicate column name: conversation_id"
  else .ok { s with hasConversationIdColumn := true }

/-- The ALTER TABLE step together with its surrounding try/catch from
`initializeDatabase`: the duplicate-column error is ignored as expected,
and any other alter error is only logged with `console.warn` — the rethrow
is commented out in the source, so it is swallowed as well. `env3` injects
an environmental failure of the statement. -/
def alterStepCaught (env3 : Option String) (s : DBState) : DBState :=
  match (match env3 with
         | some m => ExecResult.err m
         | none => alterAddConversationId s) with
  | .ok s1 => s1
  | .err m => if strContains m "duplicate column name" then s else s

/-- CREATE INDEX IF NOT EXISTS idx_conversation_id ON
chat_messages(conversation_id): a no-op when the index already exists;
otherwise it errors with the SQLite no-such-column condition when the
conversation_id column is absent, and creates the index when the column
is present. -/
def createIndex (s : DBState) : ExecResult :=
  if s.hasConversationIdIndex then .ok s
  else if s.hasConversationIdColumn then .ok { s with hasConversationIdIndex := true }
  else .err "no such column: conversation_id"

/-- The state a successful index creation leaves behind (the bootstrap
only reaches the index statement in states whose column is present, where
`createIndex` cannot fail). -/
def createIndexD (s : DBState) : DBState :=
  (createIndex s).getD s

/-- INSERT OR IGNORE INTO settings: seeds the row only when no row with
that key exists, never overwriting. -/
def insertOrIgnoreSetting (s : DBState) (key value : String) : DBState :=
  if s.settings.any (fun kv => kv.1 = key) then s
  else { s with settings := s.settings ++ [(key, value)] }

/-- INSERT OR REPLACE INTO settings (SettingsPage handleSave): upsert. -/
def insertOrReplaceSetting (s : DBState) (key value : String) : DBState :=
  { s with settings := s.settings.filter (fun kv => decide (kv.1 ≠ key)) ++ [(key, value)] }

/-- The `initializeDatabase` bootstrap from App.tsx. `env i` injects
an environmental failure into the i-th execute statement (`none` means the
statement itself decides). Statement order follows the source: create
conversations, create settings, create chat_messages, the caught ALTER
TABLE, create index, seed the default system prompt. Any error outside the
inner ALTER catch — including the no-such-column failure of the index
creation when the scoping column is still absent — propagates to the
outer catch, which aborts initialization. -/
def initializeDatabase (env : Nat → Option String) (s : DBState) : ExecResult :=
  match env 0 with
  | some m => .err m
  | none =>
  let s1 := createConversationsTable s
  match env 1 with
  | some m => .err m
  | none =>
  let s2 := createSettingsTable s1
  match env 2 with
  | some m => .err m
  | none =>
  let s3 := createMessagesTable s2
  let s4 := alterStepCaught (env 3) s3
  match env 4 with
  | some m => .err m
  | none =>
  match createIndex s4 with
  | .err m => .err m
  | .ok s5 =>
  match env 5 with
  | some m => .err m
  | none =>
  .ok (insertOrIgnoreSetting s5 globalSystemPromptKey defaultSystemPrompt)

/-- An environment with no injected failures. -/
def noFaults : Nat → Option String := fun _ => none

/-- SELECT value FROM settings WHERE key = $1 (first matching row). -/
def selectSetting (s : DBState) (key : String) : Option String :=
  (s.settings.find? (fun kv => decide (kv.1 = key))).map (fun kv => kv.2)

/-- The row a message insert adds: store-assigned id and timestamp. -/
def newMsgRow (s : DBState) (convId : Option Nat) (role content : String) : MsgRow :=
  { id := s.nextMsgId, role := role, content := content,
    conversation_id := convId, timestamp := s.nextMsgId }

/-- The state after a successful message insert. -/
def msgInserted (s : DBState) (convId : Option Nat) (role content : String) : DBState :=
  { s with chat_messages := s.chat_messages ++ [newMsgRow s convId role content],
           nextMsgId := s.nextMsgId + 1 }

/-- INSERT INTO chat_messages (conversation_id, role, content): SQLite
enforces the schema CHECK constraint role IN (user, assistant, system);
the store assigns the id and the timestamp. -/
def insertChatMessage (s : DBState) (convId : Option Nat) (role content : String) : ExecResult :=
  if role = "user" ∨ role = "assistant" ∨ role = "system" then
    .ok (msgInserted s convId role content)
  else .err "CHECK constraint failed: role"

/-- SELECT role, content FROM chat_messages WHERE conversation_id = $1
ORDER BY timestamp ASC (ChatPage loadHistoryFromDb and the history fetch in
handleSubmit). The rows are passed through as returned, with no validation
at the boundary. -/
def selectHistory (s : DBState) (convId : Nat) : List (String × String) :=
  (sortBy (fun a b => decide (a.timestamp ≤ b.timestamp))
      (s.chat_messages.filter (fun m => decide (m.conversation_id = some convId)))).map
    (fun m => (m.role, m.content))

/-- SELECT id, name, created_at FROM conversations ORDER BY created_at DESC
(App.tsx loadConversations). -/
def loadConversations (s : DBState) : List ConvRow :=
  sortBy (fun a b => decide (b.created_at ≤ a.created_at)) s.conversations

/-- INSERT INTO conversations (name) VALUES ($1) (App.tsx handleNewChat):
the store assigns the id and created_at. -/
def insertConversation (s : DBState) (name : String) : DBState :=
  { s with
    conversations := s.conversations ++
      [{ id := s.nextConvId, name := name, created_at := s.nextConvId }],
    nextConvId := s.nextConvId + 1 }

/-- The two delete statements issued by `handleDeleteConversation`, as a
trace in execution order. -/
inductive DeleteOp where
  | deleteMessages (convId : Nat)
  | deleteConversation (convId : Nat)
deriving DecidableEq, Repr

/-- The `handleDeleteConversation` flow (App.tsx): DELETE FROM chat_messages WHERE
conversation_id = $1, then DELETE FROM conversations WHERE id = $1, as two
separate statements; the returned trace records their order. -/
def handleDeleteConversation (s : DBState) (convId : Nat) : DBState × List DeleteOp :=
  let s1 := { s with
              chat_messages := s.chat_messages.filter
                (fun m => decide (m.conversation_id ≠ some convId)) }
  let s2 := { s1 with
              conversations := s1.conversations.filter (fun c => decide (c.id ≠ convId)) }
  (s2, [DeleteOp.deleteMessages convId, DeleteOp.deleteConversation convId])

/-- The fallback applied to the settings query result in handleSubmit:
the stored value when a row exists, the built-in default otherwise. -/
def systemPromptValue (s : DBState) : String :=
  match selectSetting s globalSystemPromptKey with
  | some v => v
  | none => defaultSystemPrompt

/-- Context assembly from `handleSubmit` (ChatPage.tsx): the system prompt
entry when the resolved prompt value is non-empty (JavaScript truthiness of
the string), then the persisted history in ascending timestamp order, then
the pending user message. -/
def messagesForLLM (s : DBState) (convId : Nat) (pendingContent : String) :
    List (String × String) :=
  let historyMessages := selectHistory s convId
  let globalContext := systemPromptValue s
  (if globalContext ≠ "" then [("system", globalContext)] else [])
    ++ historyMessages ++ [("user", pendingContent)]

/-- Injected outcomes of the fallible calls inside `handleSubmit`, in
program order: the history select, the settings select, the inference call
`invoke(ask_llm)`, and an environmental failure for each of the two
INSERT statements (`none` means the statement reaches the store). -/
structure SubmitEnv where
  select1 : Option String
  select2 : Option String
  askLlm : Except String String
  insert1 : Option String
  insert2 : Option String

/-- What `handleSubmit` leaves behind: the UI mirror (role, content list),
the store, and the surfaced error, if any. -/
structure SubmitResult where
  conversation : List (String × String)
  db : DBState
  error : Option String
deriving DecidableEq, Repr

/-- The `handleSubmit` flow (ChatPage.tsx): appends the user turn to the mirror
optimistically, fetches history and the system prompt, calls the inference
engine, persists both turns inside an inner try whose catch only records
the error, then appends the assistant turn to the mirror. The outer catch
(reached by select or inference failures, not by insert failures) rolls
back the optimistic entry with slice(0, -1) and leaves the store alone. -/
def handleSubmit (env : SubmitEnv) (mirror : List (String × String)) (s : DBState)
    (convId : Nat) (currentPrompt : String) : SubmitResult :=
  let userMessage := ("user", currentPrompt)
  let mirror1 := mirror ++ [userMessage]
  let tryBody : Except String SubmitResult :=
    match env.select1 with
    | some m => .error m
    | none =>
    match env.select2 with
    | some m => .error m
    | none =>
    match env.askLlm with
    | .error m => .error m
    | .ok assistantResponseContent =>
      let assistantMessage := ("assistant", assistantResponseContent)
      let saved : DBState × Option String :=
        match env.insert1 with
        | some m => (s, some m)
        | none =>
          match insertChatMessage s (some convId) "user" currentPrompt with
          | .err m => (s, some m)
          | .ok sU =>
            match env.insert2 with
            | some m => (sU, some m)
            | none =>
              match insertChatMessage sU (some convId) "assistant" assistantResponseContent with
              | .err m => (sU, some m)
              | .ok sUA => (sUA, none)
      .ok { conversation := mirror1 ++ [assistantMessage], db := saved.1, error := saved.2 }
  match tryBody with
  | .ok r => r
  | .error m => { conversation := mirror1.dropLast, db := s, error := some m }

/-- Appends N turn pairs through the store insert, user turn then assistant
turn for each pair (the persistence pattern of the submit flow). -/
def appendTurnPairs (s : DBState) (convId : Nat) : List (String × String) → DBState
  | [] => s
  | (u, a) :: rest =>
    match insertChatMessage s (some convId) "user" u with
    | .err _ => s
    | .ok s1 =>
      match insertChatMessage s1 (some convId) "assistant" a with
      | .err _ => s1
      | .ok s2 => appendTurnPairs s2 convId rest

/-- The (role, content) sequence the appended turn pairs amount to. -/
def turnMessages : List (String × String) → List (String × String)
  | [] => []
  | (u, a) :: rest => ("user", u) :: ("assistant", a) :: turnMessages rest

/-- A sequence of conversation creations. -/
def createMany (s : DBState) : List String → DBState
  | [] => s
  | n :: ns => createMany (insertConversation s n) ns

/-- The conversation rows a sequence of creations produces, in creation
order, when the next id counter starts at `n`. -/
def convRowsFrom (n : Nat) : List String → List ConvRow
  | [] => []
  | name :: rest => { id := n, name := name, created_at := n } :: convRowsFrom (n + 1) rest

/-- Well-formedness of the message table: timestamps strictly increase in
row order and stay below the insertion counter. Every state reachable
through the store inserts satisfies it. -/
def MsgInv (s : DBState) : Prop :=
  s.chat_messages.Pairwise (fun a b => a.timestamp < b.timestamp) ∧
    ∀ m ∈ s.chat_messages, m.timestamp < s.nextMsgId

/-- Well-formedness of the conversations table: created_at values strictly
increase in row order and stay below the id counter. -/
def ConvInv (s : DBState) : Prop :=
  s.conversations.Pairwise (fun a b => a.created_at < b.created_at) ∧
    ∀ c ∈ s.conversations, c.created_at < s.nextConvId

/-- A store in which a table that does not exist has no rows. -/
def WFTables (s : DBState) : Prop :=
  (s.hasSettingsTable = false → s.settings = []) ∧
    (s.hasConversationsTable = false → s.conversations = []) ∧
    (s.hasMessagesTable = false → s.chat_messages = [])

instance (s : DBState) : Decidable (MsgInv s) := by
  unfold MsgInv; infer_instance

instance (s : DBState) : Decidable (ConvInv s) := by
  unfold ConvInv; infer_instance

instance (s : DBState) : Decidable (WFTables s) := by
  unfold WFTables; infer_instance

/-- The fault-free bootstrap pipeline (the value `initializeDatabase`
returns when no statement fails environmentally; the alter step then
guarantees the column, so the index creation cannot fail). -/
def bootstrapNF (s : DBState) : DBState :=
  insertOrIgnoreSetting
    (createIndexD (alterStepCaught none (createMessagesTable (createSettingsTable
      (createConversationsTable s)))))
    globalSystemPromptKey defaultSystemPrompt

/-- Fault environment failing only the ALTER TABLE statement, with an
error that is not the duplicate-column condition. -/
def envAlterFault : Nat → Option String :=
  fun n => if n = 3 then some "disk I/O error" else none

/-- The store of the specification scenario: bootstrap a fresh store,
create conversation Test, append (user, Hi) and (assistant, Hello) to it,
then save the system prompt Be terse. -/
def scenarioDB : DBState :=
  let s0 := (initializeDatabase noFaults emptyDB).getD emptyDB
  let s1 := insertConversation s0 "Test"
  let s2 := (insertChatMessage s1 (some 1) "user" "Hi").getD s1
  let s3 := (insertChatMessage s2 (some 1) "assistant" "Hello").getD s2
  insertOrReplaceSetting s3 globalSystemPromptKey "Be terse"

/-- A store whose message table holds a row with a role outside the
enumeration. The bootstrap keeps a pre-existing table and its rows exactly
as they are, and the read path neither assumes nor checks the enumeration,
so the model allows such rows in the state. -/
def badRoleDB : DBState :=
  { hasConversationsTable := true
    hasSettingsTable := true
    hasMessagesTable := true
    hasConversationIdColumn := true
    hasConversationIdIndex := true
    conversations := [{ id := 1, name := "Old", created_at := 1 }]
    chat_messages := [{ id := 1, role := "tool", content := "x", conversation_id := some 1, timestamp := 1 }]
    settings := [(globalSystemPromptKey, defaultSystemPrompt)]
    nextConvId := 2
    nextMsgId := 2 }

/-- A store with two conversations and one message in each, for exercising
conversation deletion. -/
def twoConvDB : DBState :=
  { hasConversationsTable := true
    hasSettingsTable := true
    hasMessagesTable := true
    hasConversationIdColumn := true
    hasConversationIdIndex := true
    conversations := [{ id := 1, name := "A", created_at := 1 }, { id := 2, name := "B", created_at := 2 }]
    chat_messages :=
      [{ id := 1, role := "user", content := "a", conversation_id := some 1, timestamp := 1 },
       { id := 2, role := "user", content := "b", conversation_id := some 2, timestamp := 2 }]
    settings := [(globalSystemPromptKey, defaultSystemPrompt)]
    nextConvId := 3
    nextMsgId := 3 }

/-- Submit environment: the inference call fails, nothing else does. -/
def envInferFail : SubmitEnv :=
  { select1 := none, select2 := none, askLlm := .error "connection refused"
    insert1 := none, insert2 := none }

/-- Submit environment: inference succeeds, the first INSERT succeeds and
the second INSERT fails. -/
def envSecondInsertFail : SubmitEnv :=
  { select1 := none, select2 := none, askLlm := .ok "Hello!"
    insert1 := none, insert2 := some "database is locked" }

/-- Submit environment: everything succeeds. -/
def envAllOk : SubmitEnv :=
  { select1 := none, select2 := none, askLlm := .ok "Hello!"
    insert1 := none, insert2 := none }

/-! Helper lemmas about the ORDER BY model. -/

theorem inssort_perm {α : Type} (le : α → α → Bool) (a : α) :
    ∀ l : List α, (inssort le a l).Perm (a :: l)
  | [] => List.Perm.refl _
  | b :: bs => by
    unfold inssort
    split
    · exact ((inssort_perm le a bs).cons b).trans (List.Perm.swap a b bs)
    · exact List.Perm.refl _

theorem sortBy_perm {α : Type} (le : α → α → Bool) :
    ∀ l : List α, (sortBy le l).Perm l
  | [] => List.Perm.refl _
  | x :: xs => by
    unfold sortBy
    exact ((inssort_perm le x (sortBy le xs)).trans ((sortBy_perm le xs).cons x))

theorem mem_sortBy {α : Type} (le : α → α → Bool) (l : List α) (a : α) :
    a ∈ sortBy le l ↔ a ∈ l :=
  (sortBy_perm le l).mem_iff

theorem sortBy_eq_self {α : Type} (le : α → α → Bool) :
    ∀ l : List α, l.Pairwise (fun x y => le y x = false) → sortBy le l = l
  | [], _ => rfl
  | x :: xs, h => by
    rw [List.pairwise_cons] at h
    unfold sortBy
    rw [sortBy_eq_self le xs h.2]
    cases xs with
    | nil => rfl
    | cons y ys =>
      have hy : le y x = false := h.1 y (List.mem_cons_self y ys)
      unfold inssort
      rw [hy]
      simp

theorem inssort_append_of_all {α : Type} (le : α → α → Bool) (a : α) :
    ∀ l : List α, (∀ b ∈ l, le b a = true) → inssort le a l = l ++ [a]
  | [], _ => rfl
  | b :: bs, h => by
    have hb : le b a = true := h b (List.mem_cons_self b bs)
    unfold inssort
    rw [hb]
    simp only [if_true]
    rw [inssort_append_of_all le a bs (fun x hx => h x (List.mem_cons_of_mem b hx))]
    rfl

theorem sortBy_desc_eq_reverse (l : List ConvRow)
    (h : l.Pairwise (fun a b => a.created_at < b.created_at)) :
    sortBy (fun a b => decide (b.created_at ≤ a.created_at)) l = l.reverse := by
  induction l with
  | nil => rfl
  | cons x xs ih =>
    rw [List.pairwise_cons] at h
    unfold sortBy
    rw [ih h.2, inssort_append_of_all _ x xs.reverse ?_, List.reverse_cons]
    intro b hb
    have hxb : x.created_at < b.created_at := h.1 b (List.mem_reverse.mp hb)
    simp [Nat.le_of_lt hxb]

/-! Helper lemmas about the message store. -/

theorem selectHistory_eq_filter (s : DBState) (convId : Nat)
    (h : s.chat_messages.Pairwise (fun a b => a.timestamp < b.timestamp)) :
    selectHistory s convId =
      (s.chat_messages.filter (fun m => decide (m.conversation_id = some convId))).map
        (fun m => (m.role, m.content)) := by
  unfold selectHistory
  congr 1
  apply sortBy_eq_self
  have hf := List.Pairwise.filter (R := fun (a b : MsgRow) => a.timestamp < b.timestamp)
    (fun m => decide (m.conversation_id = some convId)) h
  exact hf.imp (fun hab => decide_eq_false (Nat.not_le.mpr hab))

theorem insertChatMessage_ok (s : DBState) (convId : Option Nat) (role content : String)
    (h : role = "user" ∨ role = "assistant" ∨ role = "system") :
    insertChatMessage s convId role content = .ok (msgInserted s convId role content) := by
  unfold insertChatMessage
  rw [if_pos h]

theorem msgInv_msgInserted (s : DBState) (convId : Option Nat) (role content : String)
    (hinv : MsgInv s) : MsgInv (msgInserted s convId role content) := by
  obtain ⟨hp, hb⟩ := hinv
  unfold MsgInv msgInserted
  constructor
  · rw [List.pairwise_append]
    refine ⟨hp, List.pairwise_singleton _ _, ?_⟩
    intro a ha b hbm
    rcases List.mem_singleton.mp hbm with rfl
    exact hb a ha
  · intro m hm
    rcases List.mem_append.mp hm with h1 | h1
    · exact Nat.lt_succ_of_lt (hb m h1)
    · rcases List.mem_singleton.mp h1 with rfl
      exact Nat.lt_succ_self _

theorem selectHistory_msgInserted (s : DBState) (convId : Option Nat) (role content : String)
    (c : Nat) (hinv : MsgInv s) :
    selectHistory (msgInserted s convId role content) c =
      selectHistory s c ++ (if convId = some c then [(role, content)] else []) := by
  have hinv2 := msgInv_msgInserted s convId role content hinv
  rw [selectHistory_eq_filter _ _ hinv2.1, selectHistory_eq_filter _ _ hinv.1]
  show ((s.chat_messages ++ [newMsgRow s convId role content]).filter _).map _ = _
  rw [List.filter_append, List.map_append]
  congr 1
  by_cases hc : convId = some c
  · simp [newMsgRow, hc]
  · simp [newMsgRow, hc]

/-! Helper lemmas about the schema bootstrap. -/

theorem alterStepCaught_none (s : DBState) :
    alterStepCaught none s =
      if s.hasConversationIdColumn then s else { s with hasConversationIdColumn := true } := by
  by_cases h : s.hasConversationIdColumn <;>
    simp [alterStepCaught, alterAddConversationId, h]

theorem insertOrIgnoreSetting_key (s : DBState) (key value : String) :
    (insertOrIgnoreSetting s key value).settings.any (fun kv => kv.1 = key) = true := by
  by_cases h : s.settings.any (fun kv => kv.1 = key) <;>
    simp [insertOrIgnoreSetting, h]

theorem cc_flag (s : DBState) : (createConversationsTable s).hasConversationsTable = true := by
  unfold createConversationsTable; split <;> first | rfl | assumption

theorem cc_setFlag (s : DBState) :
    (createConversationsTable s).hasSettingsTable = s.hasSettingsTable := by
  unfold createConversationsTable; split <;> rfl

theorem cc_settings (s : DBState) : (createConversationsTable s).settings = s.settings := by
  unfold createConversationsTable; split <;> rfl

theorem cc_id (s : DBState) (h : s.hasConversationsTable = true) :
    createConversationsTable s = s := by
  unfold createConversationsTable; rw [h]; rfl

theorem cs_flag (s : DBState) : (createSettingsTable s).hasSettingsTable = true := by
  unfold createSettingsTable; split <;> first | rfl | assumption

theorem cs_convFlag (s : DBState) :
    (createSettingsTable s).hasConversationsTable = s.hasConversationsTable := by
  unfold createSettingsTable; split <;> rfl

theorem cs_settings (s : DBState) (hwf : s.hasSettingsTable = false → s.settings = []) :
    (createSettingsTable s).settings = s.settings := by
  unfold createSettingsTable
  split
  · rfl
  · rename_i h
    simp only [Bool.not_eq_true] at h
    exact (hwf h).symm

theorem cs_id (s : DBState) (h : s.hasSettingsTable = true) : createSettingsTable s = s := by
  unfold createSettingsTable; rw [h]; rfl

theorem cm_flag (s : DBState) : (createMessagesTable s).hasMessagesTable = true := by
  unfold createMessagesTable; split <;> first | rfl | assumption

theorem cm_convFlag (s : DBState) :
    (createMessagesTable s).hasConversationsTable = s.hasConversationsTable := by
  unfold createMessagesTable; split <;> rfl

theorem cm_setFlag (s : DBState) :
    (createMessagesTable s).hasSettingsTable = s.hasSettingsTable := by
  unfold createMessagesTable; split <;> rfl

theorem cm_settings (s : DBState) : (createMessagesTable s).settings = s.settings := by
  unfold createMessagesTable; split <;> rfl

theorem cm_id (s : DBState) (h : s.hasMessagesTable = true) : createMessagesTable s = s := by
  unfold createMessagesTable; rw [h]; rfl

theorem cc_msgFlag (s : DBState) :
    (createConversationsTable s).hasMessagesTable = s.hasMessagesTable := by
  unfold createConversationsTable; split <;> rfl

theorem cc_colFlag (s : DBState) :
    (createConversationsTable s).hasConversationIdColumn = s.hasConversationIdColumn := by
  unfold createConversationsTable; split <;> rfl

theorem cc_idxFlag (s : DBState) :
    (createConversationsTable s).hasConversationIdIndex = s.hasConversationIdIndex := by
  unfold createConversationsTable; split <;> rfl

theorem cs_msgFlag (s : DBState) :
    (createSettingsTable s).hasMessagesTable = s.hasMessagesTable := by
  unfold createSettingsTable; split <;> rfl

theorem cs_colFlag (s : DBState) :
    (createSettingsTable s).hasConversationIdColumn = s.hasConversationIdColumn := by
  unfold createSettingsTable; split <;> rfl

theorem cs_idxFlag (s : DBState) :
    (createSettingsTable s).hasConversationIdIndex = s.hasConversationIdIndex := by
  unfold createSettingsTable; split <;> rfl

theorem cm_colFlag (s : DBState) :
    (createMessagesTable s).hasConversationIdColumn =
      (s.hasMessagesTable && s.hasConversationIdColumn) := by
  unfold createMessagesTable
  by_cases h : s.hasMessagesTable <;> simp [h]

theorem cm_idxFlag (s : DBState) :
    (createMessagesTable s).hasConversationIdIndex =
      (s.hasMessagesTable && s.hasConversationIdIndex) := by
  unfold createMessagesTable
  by_cases h : s.hasMessagesTable <;> simp [h]

theorem alterStepCaught_some (m : String) (s : DBState) :
    alterStepCaught (some m) s = s := by
  simp [alterStepCaught]

theorem createIndex_eq (s : DBState) :
    createIndex s =
      if s.hasConversationIdIndex || s.hasConversationIdColumn then
        .ok (if s.hasConversationIdIndex then s else { s with hasConversationIdIndex := true })
      else .err "no such column: conversation_id" := by
  unfold createIndex
  by_cases hi : s.hasConversationIdIndex <;> by_cases hc : s.hasConversationIdColumn <;>
    simp [hi, hc]

theorem as_flag (s : DBState) : (alterStepCaught none s).hasConversationIdColumn = true := by
  rw [alterStepCaught_none]; split <;> first | rfl | assumption

theorem as_convFlag (s : DBState) :
    (alterStepCaught none s).hasConversationsTable = s.hasConversationsTable := by
  rw [alterStepCaught_none]; split <;> rfl

theorem as_setFlag (s : DBState) :
    (alterStepCaught none s).hasSettingsTable = s.hasSettingsTable := by
  rw [alterStepCaught_none]; split <;> rfl

theorem as_msgFlag (s : DBState) :
    (alterStepCaught none s).hasMessagesTable = s.hasMessagesTable := by
  rw [alterStepCaught_none]; split <;> rfl

theorem as_settings (s : DBState) : (alterStepCaught none s).settings = s.settings := by
  rw [alterStepCaught_none]; split <;> rfl

theorem as_id (s : DBState) (h : s.hasConversationIdColumn = true) :
    alterStepCaught none s = s := by
  rw [alterStepCaught_none, if_pos h]

theorem createIndex_of_column (s : DBState) (h : s.hasConversationIdColumn = true) :
    createIndex s =
      .ok (if s.hasConversationIdIndex then s else { s with hasConversationIdIndex := true }) := by
  unfold createIndex
  by_cases hi : s.hasConversationIdIndex <;> simp [hi, h]

theorem createIndex_of_no_column (s : DBState) (hc : s.hasConversationIdColumn = false)
    (hi : s.hasConversationIdIndex = false) :
    createIndex s = .err "no such column: conversation_id" := by
  unfold createIndex
  rw [hc, hi]
  rfl

theorem ci_flag (s : DBState) (h : s.hasConversationIdColumn = true) :
    (createIndexD s).hasConversationIdIndex = true := by
  unfold createIndexD createIndex ExecResult.getD
  by_cases hi : s.hasConversationIdIndex <;> simp [hi, h]

theorem ci_convFlag (s : DBState) :
    (createIndexD s).hasConversationsTable = s.hasConversationsTable := by
  unfold createIndexD createIndex ExecResult.getD
  by_cases hi : s.hasConversationIdIndex <;>
    by_cases hc : s.hasConversationIdColumn <;> simp [hi, hc]

theorem ci_setFlag (s : DBState) :
    (createIndexD s).hasSettingsTable = s.hasSettingsTable := by
  unfold createIndexD createIndex ExecResult.getD
  by_cases hi : s.hasConversationIdIndex <;>
    by_cases hc : s.hasConversationIdColumn <;> simp [hi, hc]

theorem ci_msgFlag (s : DBState) :
    (createIndexD s).hasMessagesTable = s.hasMessagesTable := by
  unfold createIndexD createIndex ExecResult.getD
  by_cases hi : s.hasConversationIdIndex <;>
    by_cases hc : s.hasConversationIdColumn <;> simp [hi, hc]

theorem ci_colFlag (s : DBState) :
    (createIndexD s).hasConversationIdColumn = s.hasConversationIdColumn := by
  unfold createIndexD createIndex ExecResult.getD
  by_cases hi : s.hasConversationIdIndex <;>
    by_cases hc : s.hasConversationIdColumn <;> simp [hi, hc]

theorem ci_settings (s : DBState) : (createIndexD s).settings = s.settings := by
  unfold createIndexD createIndex ExecResult.getD
  by_cases hi : s.hasConversationIdIndex <;>
    by_cases hc : s.hasConversationIdColumn <;> simp [hi, hc]

theorem ci_id (s : DBState) (h : s.hasConversationIdIndex = true) : createIndexD s = s := by
  unfold createIndexD createIndex ExecResult.getD
  simp [h]

theorem initializeDatabase_noFaults (s : DBState) :
    initializeDatabase noFaults s = .ok (bootstrapNF s) := by
  have hcol := as_flag (createMessagesTable (createSettingsTable (createConversationsTable s)))
  unfold initializeDatabase bootstrapNF createIndexD
  simp only [noFaults]
  rcases hidx : createIndex (alterStepCaught none (createMessagesTable (createSettingsTable
      (createConversationsTable s)))) with s5 | m
  · rfl
  · exfalso
    unfold createIndex at hidx
    by_cases hi : (alterStepCaught none (createMessagesTable (createSettingsTable
        (createConversationsTable s)))).hasConversationIdIndex <;>
      simp [hi, hcol] at hidx

theorem ig_settings (s : DBState) (key value : String) :
    (insertOrIgnoreSetting s key value).settings =
      s.settings ++
        (if s.settings.any (fun kv => kv.1 = key) then [] else [(key, value)]) := by
  unfold insertOrIgnoreSetting
  split <;> rename_i h <;> simp [h]

theorem ig_id (s : DBState) (key value : String)
    (h : s.settings.any (fun kv => kv.1 = key) = true) :
    insertOrIgnoreSetting s key value = s := by
  unfold insertOrIgnoreSetting; rw [h]; rfl

theorem bootstrapNF_flags (s : DBState) :
    (bootstrapNF s).hasConversationsTable = true ∧
      (bootstrapNF s).hasSettingsTable = true ∧
      (bootstrapNF s).hasMessagesTable = true ∧
      (bootstrapNF s).hasConversationIdColumn = true ∧
      (bootstrapNF s).hasConversationIdIndex = true ∧
      (bootstrapNF s).settings.any (fun kv => kv.1 = globalSystemPromptKey) = true := by
  unfold bootstrapNF insertOrIgnoreSetting
  refine ⟨?_, ?_, ?_, ?_, ?_, ?_⟩
  case _ =>
    split <;> rw [ci_convFlag, as_convFlag, cm_convFlag, cs_convFlag, cc_flag]
  case _ =>
    split <;> rw [ci_setFlag, as_setFlag, cm_setFlag, cs_flag]
  case _ =>
    split <;> rw [ci_msgFlag, as_msgFlag, cm_flag]
  case _ =>
    split <;> rw [ci_colFlag, as_flag]
  case _ =>
    split <;> rw [ci_flag _ (as_flag _)]
  case _ =>
    have := insertOrIgnoreSetting_key
      (createIndexD (alterStepCaught none (createMessagesTable (createSettingsTable
        (createConversationsTable s))))) globalSystemPromptKey defaultSystemPrompt
    unfold insertOrIgnoreSetting at this
    exact this

theorem bootstrapNF_fixed (s : DBState)
    (h1 : s.hasConversationsTable = true) (h2 : s.hasSettingsTable = true)
    (h3 : s.hasMessagesTable = true) (h4 : s.hasConversationIdColumn = true)
    (h5 : s.hasConversationIdIndex = true)
    (h6 : s.settings.any (fun kv => kv.1 = globalSystemPromptKey) = true) :
    bootstrapNF s = s := by
  unfold bootstrapNF
  rw [cc_id s h1, cs_id s h2, cm_id s h3, as_id s h4, ci_id s h5, ig_id s _ _ h6]

theorem bootstrapNF_settings (s : DBState)
    (hwf : s.hasSettingsTable = false → s.settings = []) :
    (bootstrapNF s).settings =
      s.settings ++
        (if s.settings.any (fun kv => kv.1 = globalSystemPromptKey) then []
         else [(globalSystemPromptKey, defaultSystemPrompt)]) := by
  unfold bootstrapNF
  have hset : (createConversationsTable s).hasSettingsTable = false →
      (createConversationsTable s).settings = [] := by
    rw [cc_setFlag, cc_settings]; exact hwf
  rw [ig_settings, ci_settings, as_settings, cm_settings, cs_settings _ hset, cc_settings]

/-! Helper lemmas about list search and the conversation store. -/

theorem find?_append_left {α : Type} (p : α → Bool) (x : α) :
    ∀ l t : List α, l.find? p = some x → (l ++ t).find? p = some x := by
  intro l t h
  induction l with
  | nil => simp [List.find?] at h
  | cons a as ih =>
    simp only [List.cons_append, List.find?_cons] at h ⊢
    cases hpa : p a with
    | true =>
      rw [hpa] at h
      exact h
    | false =>
      rw [hpa] at h
      exact ih h

theorem find?_append_right {α : Type} (p : α → Bool) :
    ∀ l t : List α, l.find? p = none → (l ++ t).find? p = t.find? p := by
  intro l t h
  induction l with
  | nil => rfl
  | cons a as ih =>
    simp only [List.cons_append, List.find?_cons] at h ⊢
    cases hpa : p a with
    | true =>
      rw [hpa] at h
      simp at h
    | false =>
      rw [hpa] at h
      exact ih h

theorem any_eq_false_of_find?_none {α : Type} (p : α → Bool) (l : List α)
    (h : l.find? p = none) : l.any p = false := by
  rw [Bool.eq_false_iff]
  intro hany
  rcases List.any_eq_true.mp hany with ⟨x, hx, hp⟩
  exact absurd hp (List.find?_eq_none.mp h x hx)

theorem convInv_insertConversation (s : DBState) (name : String) (hinv : ConvInv s) :
    ConvInv (insertConversation s name) := by
  obtain ⟨hp, hb⟩ := hinv
  unfold ConvInv insertConversation
  constructor
  · rw [List.pairwise_append]
    refine ⟨hp, List.pairwise_singleton _ _, ?_⟩
    intro a ha b hbm
    rcases List.mem_singleton.mp hbm with rfl
    exact hb a ha
  · intro c hc
    rcases List.mem_append.mp hc with h1 | h1
    · exact Nat.lt_succ_of_lt (hb c h1)
    · rcases List.mem_singleton.mp h1 with rfl
      exact Nat.lt_succ_self _

theorem createMany_conversations :
    ∀ (names : List String) (s : DBState), ConvInv s →
      (createMany s names).conversations = s.conversations ++ convRowsFrom s.nextConvId names ∧
        ConvInv (createMany s names)
  | [], s, hinv => by simp [createMany, convRowsFrom, hinv]
  | n :: ns, s, hinv => by
    have hinv2 := convInv_insertConversation s n hinv
    have ih := createMany_conversations ns (insertConversation s n) hinv2
    unfold createMany
    refine ⟨?_, ih.2⟩
    rw [ih.1]
    simp only [insertConversation]
    simp [convRowsFrom, List.append_assoc]

theorem loadConversations_eq_reverse (s : DBState) (hinv : ConvInv s) :
    loadConversations s = s.conversations.reverse := by
  unfold loadConversations
  exact sortBy_desc_eq_reverse s.conversations hinv.1

/-- C8: for all sequences of conversation creations (starting from any
well-formed store), `loadConversations` returns the conversations ordered
by creation time descending: it equals the reverse of the table contents,
the table contents extend the prior rows by the created rows in creation
order, and the returned list is strictly descending in `created_at`. -/
theorem c8_list_ordered_by_creation_desc (s : DBState) (names : List String)
    (hinv : ConvInv s) :
    (createMany s names).conversations = s.conversations ++ convRowsFrom s.nextConvId names ∧
      loadConversations (createMany s names) =
        (s.conversations ++ convRowsFrom s.nextConvId names).reverse ∧
      (loadConversations (createMany s names)).Pairwise
        (fun a b => b.created_at < a.created_at) := by
  obtain ⟨hconvs, hinv2⟩ := createMany_conversations names s hinv
  refine ⟨hconvs, ?_, ?_⟩
  · rw [loadConversations_eq_reverse _ hinv2, hconvs]
  · rw [loadConversations_eq_reverse _ hinv2]
    exact List.pairwise_reverse.mpr hinv2.1

/-- Witness for C8 at a concrete input: two creations on the fresh store
are listed most recent first. -/
theorem c8_witness :
    loadConversations (createMany emptyDB ["A", "B"]) =
      (emptyDB.conversations ++ convRowsFrom emptyDB.nextConvId ["A", "B"]).reverse :=
  (c8_list_ordered_by_creation_desc emptyDB ["A", "B"] (by decide)).2.1

theorem selectHistory_appendTurnPairs :
    ∀ (pairs : List (String × String)) (s : DBState) (convId : Nat), MsgInv s →
      selectHistory (appendTurnPairs s convId pairs) convId =
        selectHistory s convId ++ turnMessages pairs
  | [], s, convId, _ => by simp [appendTurnPairs, turnMessages]
  | (u, a) :: rest, s, convId, hinv => by
    have hinv1 := msgInv_msgInserted s (some convId) "user" u hinv
    have hinv2 := msgInv_msgInserted (msgInserted s (some convId) "user" u)
      (some convId) "assistant" a hinv1
    have hrec := selectHistory_appendTurnPairs rest
      (msgInserted (msgInserted s (some convId) "user" u) (some convId) "assistant" a)
      convId hinv2
    unfold appendTurnPairs
    simp only [insertChatMessage_ok s (some convId) "user" u (Or.inl rfl),
      insertChatMessage_ok (msgInserted s (some convId) "user" u) (some convId) "assistant" a
        (Or.inr (Or.inl rfl))]
    rw [hrec,
      selectHistory_msgInserted (msgInserted s (some convId) "user" u) (some convId)
        "assistant" a convId hinv1,
      selectHistory_msgInserted s (some convId) "user" u convId hinv]
    simp [turnMessages]

/-- C7: appending N turn pairs to a conversation and then listing it
returns the prior history followed by the appended turns in append order
(the returned order equals the append order), and listing a conversation
that has no messages returns the empty sequence rather than an error. -/
theorem c7_message_store_list_order (s : DBState) (convId : Nat)
    (pairs : List (String × String)) (hinv : MsgInv s) :
    selectHistory (appendTurnPairs s convId pairs) convId =
        selectHistory s convId ++ turnMessages pairs ∧
      ∀ c : Nat, (∀ m ∈ s.chat_messages, m.conversation_id ≠ some c) →
        selectHistory s c = [] := by
  refine ⟨selectHistory_appendTurnPairs pairs s convId hinv, ?_⟩
  intro c hc
  unfold selectHistory
  rw [List.filter_eq_nil_iff.mpr (fun m hm => by simp [hc m hm])]
  rfl

/-- Witness for C7 at a concrete input: one turn pair appended to the
fresh store is listed back in order, and an untouched conversation lists
as empty. -/
theorem c7_witness :
    selectHistory (appendTurnPairs emptyDB 1 [("Hi", "Hello")]) 1 =
        selectHistory emptyDB 1 ++ turnMessages [("Hi", "Hello")] ∧
      selectHistory emptyDB 2 = [] :=
  ⟨(c7_message_store_list_order emptyDB 1 [("Hi", "Hello")] (by decide)).1,
    (c7_message_store_list_order emptyDB 1 [("Hi", "Hello")] (by decide)).2 2 (by decide)⟩

/-- C6: deleting a conversation issues the message delete first and the
conversation-row delete second; afterwards the message list of that
conversation is empty and the conversation listing no longer contains the
id. -/
theorem c6_delete_conversation (s : DBState) (convId : Nat) :
    (handleDeleteConversation s convId).2 =
        [DeleteOp.deleteMessages convId, DeleteOp.deleteConversation convId] ∧
      selectHistory (handleDeleteConversation s convId).1 convId = [] ∧
      ∀ c ∈ loadConversations (handleDeleteConversation s convId).1, c.id ≠ convId := by
  refine ⟨rfl, ?_, ?_⟩
  · have hmsgs : (handleDeleteConversation s convId).1.chat_messages =
        s.chat_messages.filter (fun m => decide (m.conversation_id ≠ some convId)) := rfl
    unfold selectHistory
    rw [hmsgs,
      List.filter_eq_nil_iff.mpr
        (fun m hm => by
          have h2 := (List.mem_filter.mp hm).2
          simp_all)]
    rfl
  · intro c hc
    have hconvs : (handleDeleteConversation s convId).1.conversations =
        s.conversations.filter (fun c => decide (c.id ≠ convId)) := rfl
    unfold loadConversations at hc
    rw [mem_sortBy, hconvs] at hc
    have h2 := (List.mem_filter.mp hc).2
    simpa using h2

/-- Witness for C6 at a concrete input: deleting conversation 1 from the
two-conversation store leaves its message list empty, emits the two
deletes in order, and the remaining listed conversation is not 1. -/
theorem c6_witness :
    (handleDeleteConversation twoConvDB 1).2 =
        [DeleteOp.deleteMessages 1, DeleteOp.deleteConversation 1] ∧
      selectHistory (handleDeleteConversation twoConvDB 1).1 1 = [] ∧
      ({ id := 2, name := "B", created_at := 2 } : ConvRow).id ≠ 1 :=
  ⟨(c6_delete_conversation twoConvDB 1).1, (c6_delete_conversation twoConvDB 1).2.1,
    (c6_delete_conversation twoConvDB 1).2.2 { id := 2, name := "B", created_at := 2 }
      (by decide)⟩

/-- C5: with no environmental faults, running the bootstrap never errors
(the duplicate-column error is absorbed), running it twice returns the
very state the first run produced (identical schema and data), an existing
system-prompt setting is never overwritten, and the default is seeded
exactly when the key is absent. -/
theorem c5_bootstrap_idempotent (s : DBState) (hwf : WFTables s) :
    (initializeDatabase noFaults s).isOk = true ∧
      initializeDatabase noFaults ((initializeDatabase noFaults s).getD s) =
        .ok ((initializeDatabase noFaults s).getD s) ∧
      (∀ v, selectSetting s globalSystemPromptKey = some v →
        selectSetting ((initializeDatabase noFaults s).getD s) globalSystemPromptKey =
          some v) ∧
      (selectSetting s globalSystemPromptKey = none →
        selectSetting ((initializeDatabase noFaults s).getD s) globalSystemPromptKey =
          some defaultSystemPrompt) := by
  obtain ⟨hset, hconv, hmsg⟩ := hwf
  rw [initializeDatabase_noFaults]
  have hgetD : (ExecResult.ok (bootstrapNF s)).getD s = bootstrapNF s := rfl
  rw [hgetD]
  obtain ⟨f1, f2, f3, f4, f5, f6⟩ := bootstrapNF_flags s
  refine ⟨rfl, ?_, ?_, ?_⟩
  · rw [initializeDatabase_noFaults,
      bootstrapNF_fixed (bootstrapNF s) f1 f2 f3 f4 f5 f6]
  · intro v hv
    unfold selectSetting at hv ⊢
    rw [bootstrapNF_settings s hset]
    rcases hfind : s.settings.find? (fun kv => decide (kv.1 = globalSystemPromptKey))
      with _ | kv
    · rw [hfind] at hv
      simp at hv
    · rw [hfind] at hv
      rw [find?_append_left _ kv _ _ hfind]
      exact hv
  · intro hnone
    unfold selectSetting at hnone ⊢
    rw [bootstrapNF_settings s hset]
    have hfind : s.settings.find? (fun kv => decide (kv.1 = globalSystemPromptKey)) = none := by
      rcases hf : s.settings.find? (fun kv => decide (kv.1 = globalSystemPromptKey)) with _ | kv
      · exact hf
      · rw [hf] at hnone
        simp at hnone
    rw [find?_append_right _ _ _ hfind]
    have hany := any_eq_false_of_find?_none _ _ hfind
    rw [hany]
    rfl

/-- Witness for C5 at a concrete input: bootstrapping the fresh store
succeeds and seeds the default system prompt. -/
theorem c5_witness :
    (initializeDatabase noFaults emptyDB).isOk = true ∧
      selectSetting ((initializeDatabase noFaults emptyDB).getD emptyDB)
        globalSystemPromptKey = some defaultSystemPrompt :=
  ⟨(c5_bootstrap_idempotent emptyDB (by decide)).1,
    (c5_bootstrap_idempotent emptyDB (by decide)).2.2.2 rfl⟩

/-- C1: for every store, conversation and pending content, the assembled
context is exactly the system entry (present if and only if the resolved
system-prompt value is non-empty), followed by the persisted messages of
the conversation in stored ascending-timestamp order, followed by the
pending (user, content) entry; and on the specification scenario store the
result is exactly the four expected entries. -/
theorem c1_context_assembly :
    (∀ (s : DBState) (convId : Nat) (pendingContent : String),
        s.chat_messages.Pairwise (fun a b => a.timestamp < b.timestamp) →
        messagesForLLM s convId pendingContent =
          (if systemPromptValue s ≠ "" then [("system", systemPromptValue s)] else [])
            ++ (s.chat_messages.filter
                  (fun m => decide (m.conversation_id = some convId))).map
                (fun m => (m.role, m.content))
            ++ [("user", pendingContent)]) ∧
      messagesForLLM scenarioDB 1 "How are you?" =
        [("system", "Be terse"), ("user", "Hi"), ("assistant", "Hello"),
          ("user", "How are you?")] := by
  constructor
  · intro s convId pendingContent hp
    unfold messagesForLLM
    rw [selectHistory_eq_filter s convId hp]
  · decide

/-- Witness for C1 at a concrete input with persisted history. -/
theorem c1_witness :
    messagesForLLM twoConvDB 1 "q" =
      (if systemPromptValue twoConvDB ≠ "" then [("system", systemPromptValue twoConvDB)]
       else [])
        ++ (twoConvDB.chat_messages.filter
              (fun m => decide (m.conversation_id = some 1))).map
            (fun m => (m.role, m.content))
        ++ [("user", "q")] :=
  c1_context_assembly.1 twoConvDB 1 "q" (by decide)

/-- C2 counterexample: on a store that already carries the
conversation-scoping column, an ALTER TABLE failure whose message is not
the duplicate-column condition is also swallowed — the bootstrap still
reports success instead of propagating the error and aborting (the
subsequent index creation succeeds because the column is present). -/
theorem c2_counterexample :
    strContains "disk I/O error" "duplicate column name" = false ∧
      envAlterFault 3 = some "disk I/O error" ∧
      twoConvDB.hasConversationIdColumn = true ∧
      (initializeDatabase envAlterFault twoConvDB).isOk = true := by
  refine ⟨by decide, rfl, rfl, rfl⟩

/-- C2 amended: failures of the statements outside the ALTER TABLE
try/catch (the table creations, the index creation, the settings seed)
propagate and abort initialization, while every failure of the ALTER
TABLE statement itself is swallowed; a swallowed environmental ALTER
failure, however, leaves the scoping column absent on a store that lacks
it, and the index creation then aborts with the no-such-column error — so
the bootstrap succeeds exactly when no statement outside the catch fails
environmentally and, whenever the ALTER statement failed environmentally,
the messages table already carried the scoping column or its index. -/
theorem c2_amended_migration_errors (env : Nat → Option String) (s : DBState) :
    (initializeDatabase env s).isOk = true ↔
      env 0 = none ∧ env 1 = none ∧ env 2 = none ∧
        (env 3 = none ∨
          (s.hasMessagesTable = true ∧
            (s.hasConversationIdColumn = true ∨ s.hasConversationIdIndex = true))) ∧
        env 4 = none ∧ env 5 = none := by
  unfold initializeDatabase
  rcases h0 : env 0 with _ | m0 <;> rcases h1 : env 1 with _ | m1 <;>
    rcases h2 : env 2 with _ | m2 <;> rcases h4 : env 4 with _ | m4 <;>
    rcases h5 : env 5 with _ | m5 <;>
    simp only [ExecResult.isOk] <;> try simp [h0, h1, h2, h4, h5]
  rcases h3 : env 3 with _ | m3
  · have hcol := as_flag (createMessagesTable (createSettingsTable (createConversationsTable s)))
    rw [createIndex_of_column _ hcol]
    simp [ExecResult.isOk]
  · rw [alterStepCaught_some, createIndex_eq, cm_idxFlag, cm_colFlag,
      cs_msgFlag, cc_msgFlag, cs_colFlag, cc_colFlag, cs_idxFlag, cc_idxFlag]
    by_cases hm : s.hasMessagesTable <;> by_cases hc : s.hasConversationIdColumn <;>
      by_cases hix : s.hasConversationIdIndex <;>
      simp [hm, hc, hix, ExecResult.isOk]
  rcases hci : createIndex (alterStepCaught (env 3) (createMessagesTable
      (createSettingsTable (createConversationsTable s)))) with s5 | m <;> rfl

/-- C3: whenever the inference call fails, `handleSubmit` leaves the
mirror exactly as it was before submit (the optimistic user entry is
removed, so the length returns to its pre-submit value), leaves the store
untouched (zero new rows), and surfaces the error. -/
theorem c3_inference_failure_rollback (env : SubmitEnv) (mirror : List (String × String))
    (s : DBState) (convId : Nat) (prompt m : String)
    (h1 : env.select1 = none) (h2 : env.select2 = none)
    (hfail : env.askLlm = .error m) :
    handleSubmit env mirror s convId prompt =
      { conversation := mirror, db := s, error := some m } := by
  unfold handleSubmit
  rw [h1, h2, hfail]
  simp [List.dropLast_concat]

/-- Witness for C3 at a concrete input. -/
theorem c3_witness :
    handleSubmit envInferFail [("user", "old")] twoConvDB 1 "Hi" =
      { conversation := [("user", "old")], db := twoConvDB,
        error := some "connection refused" } :=
  c3_inference_failure_rollback envInferFail [("user", "old")] twoConvDB 1 "Hi"
    "connection refused" rfl rfl rfl

/-- C4 counterexample: inference succeeds, the persistence step fails
(the second INSERT), and the durable store nevertheless contains one of
the two new rows — the user turn — contradicting that it contains
neither. -/
theorem c4_counterexample :
    envSecondInsertFail.askLlm = .ok "Hello!" ∧
      (handleSubmit envSecondInsertFail [] twoConvDB 1 "Hi2").error =
        some "database is locked" ∧
      ("user", "Hi2") ∉ selectHistory twoConvDB 1 ∧
      ("user", "Hi2") ∈ selectHistory (handleSubmit envSecondInsertFail [] twoConvDB 1 "Hi2").db 1 := by
  refine ⟨rfl, rfl, by decide, by decide⟩

/-- C4 amended: when inference succeeds and persistence fails, the mirror
keeps both new turns (no rollback) and the error is surfaced; the
assistant turn is never persisted, while the store is unchanged when the
first INSERT failed and contains exactly the new user row when the first
INSERT succeeded and the second failed — the divergence persists until
the next reload. -/
theorem c4_amended_persistence_failure (env : SubmitEnv) (mirror : List (String × String))
    (s : DBState) (convId : Nat) (prompt reply : String)
    (h1 : env.select1 = none) (h2 : env.select2 = none) (hok : env.askLlm = .ok reply)
    (hfail : env.insert1.isSome ∨ env.insert2.isSome) :
    (handleSubmit env mirror s convId prompt).conversation =
        mirror ++ [("user", prompt), ("assistant", reply)] ∧
      (handleSubmit env mirror s convId prompt).error.isSome = true ∧
      (env.insert1.isSome → (handleSubmit env mirror s convId prompt).db = s) ∧
      (env.insert1 = none →
        (handleSubmit env mirror s convId prompt).db.chat_messages =
          s.chat_messages ++ [newMsgRow s (some convId) "user" prompt]) := by
  unfold handleSubmit
  rw [h1, h2, hok]
  rcases hi1 : env.insert1 with _ | m1
  · rw [hi1] at hfail
    simp only [Option.isSome_none, Bool.false_eq_true, false_or] at hfail
    rcases hi2 : env.insert2 with _ | m2
    · rw [hi2] at hfail
      simp at hfail
    · simp only [insertChatMessage_ok s (some convId) "user" prompt (Or.inl rfl)]
      refine ⟨by simp, rfl, by simp, fun _ => rfl⟩
  · refine ⟨by simp, rfl, fun _ => rfl, ?_⟩
    intro hcontra
    exact absurd hcontra (by simp)

/-- Witness for C4 amended at a concrete input (the second INSERT fails). -/
theorem c4_witness :
    (handleSubmit envSecondInsertFail [] twoConvDB 1 "Hi2").conversation =
        [] ++ [("user", "Hi2"), ("assistant", "Hello!")] ∧
      (handleSubmit envSecondInsertFail [] twoConvDB 1 "Hi2").db.chat_messages =
        twoConvDB.chat_messages ++ [newMsgRow twoConvDB (some 1) "user" "Hi2"] :=
  ⟨(c4_amended_persistence_failure envSecondInsertFail [] twoConvDB 1 "Hi2" "Hello!"
      rfl rfl rfl (Or.inr rfl)).1,
    (c4_amended_persistence_failure envSecondInsertFail [] twoConvDB 1 "Hi2" "Hello!"
      rfl rfl rfl (Or.inr rfl)).2.2.2 rfl⟩

/-- C9 counterexample: the history read performs no role validation — a
stored row whose role is outside the enumeration (possible in a table
created by an earlier schema version) is passed through to the caller
unchanged, contradicting that reads reject unrecognized roles. -/
theorem c9_counterexample :
    selectHistory badRoleDB 1 = [("tool", "x")] ∧
      ("tool" ≠ "user" ∧ "tool" ≠ "assistant" ∧ "tool" ≠ "system") :=
  ⟨rfl, by decide⟩

/-- C9 amended: an append whose role is outside {user, assistant, system}
is rejected by the schema CHECK constraint and inserts nothing, but reads
perform no validation: every entry the history read returns is exactly
the (role, content) of some stored row of that conversation, whatever its
role value is. -/
theorem c9_amended_role_validation :
    (∀ (s : DBState) (convId : Option Nat) (role content : String),
        role ≠ "user" → role ≠ "assistant" → role ≠ "system" →
        insertChatMessage s convId role content = .err "CHECK constraint failed: role") ∧
      (∀ (s : DBState) (convId : Nat) (p : String × String), p ∈ selectHistory s convId →
        ∃ m, m ∈ s.chat_messages ∧ m.conversation_id = some convId ∧
          m.role = p.1 ∧ m.content = p.2) := by
  constructor
  · intro s convId role content h1 h2 h3
    unfold insertChatMessage
    rw [if_neg (by simp [h1, h2, h3])]
  · intro s convId p hp
    unfold selectHistory at hp
    rcases List.mem_map.mp hp with ⟨m, hm, hpm⟩
    rw [mem_sortBy] at hm
    have hmf := List.mem_filter.mp hm
    refine ⟨m, hmf.1, by simpa using hmf.2, ?_, ?_⟩
    · rw [← hpm]
    · rw [← hpm]

/-- Witness for C9 amended at concrete inputs: inserting role tool is
rejected, and the read returns the stored tool row verbatim. -/
theorem c9_witness :
    insertChatMessage emptyDB (some 1) "tool" "x" = .err "CHECK constraint failed: role" ∧
      ∃ m, m ∈ badRoleDB.chat_messages ∧ m.conversation_id = some 1 ∧
        m.role = ("tool", "x").1 ∧ m.content = ("tool", "x").2 :=
  ⟨c9_amended_role_validation.1 emptyDB (some 1) "tool" "x" (by decide) (by decide)
      (by decide),
    c9_amended_role_validation.2 badRoleDB 1 ("tool", "x") (by decide)⟩

/-- C10: in the submit flow the user turn is persisted strictly before the
assistant turn and the assistant insert is attempted only after the user
insert succeeded: whatever the outcomes of the calls, any newly persisted
assistant row is accompanied by a newly persisted user row of the same
pair carrying the submitted prompt and an earlier timestamp; a partial
failure can leave only the user turn, never only the assistant turn. -/
theorem c10_user_persisted_before_assistant (env : SubmitEnv)
    (mirror : List (String × String)) (s : DBState) (convId : Nat) (prompt : String)
    (hb : ∀ m ∈ s.chat_messages, m.timestamp < s.nextMsgId) :
    ∀ m ∈ (handleSubmit env mirror s convId prompt).db.chat_messages,
      s.nextMsgId ≤ m.timestamp → m.role = "assistant" →
      ∃ u, u ∈ (handleSubmit env mirror s convId prompt).db.chat_messages ∧
        s.nextMsgId ≤ u.timestamp ∧ u.role = "user" ∧ u.timestamp < m.timestamp ∧
        u.content = prompt := by
  obtain ⟨e1, e2, e3, e4, e5⟩ := env
  have hdb : (handleSubmit ⟨e1, e2, e3, e4, e5⟩ mirror s convId prompt).db.chat_messages =
        s.chat_messages ∨
      (handleSubmit ⟨e1, e2, e3, e4, e5⟩ mirror s convId prompt).db.chat_messages =
        s.chat_messages ++ [newMsgRow s (some convId) "user" prompt] ∨
      ∃ reply,
        (handleSubmit ⟨e1, e2, e3, e4, e5⟩ mirror s convId prompt).db.chat_messages =
          (s.chat_messages ++ [newMsgRow s (some convId) "user" prompt]) ++
            [newMsgRow (msgInserted s (some convId) "user" prompt) (some convId)
              "assistant" reply] := by
    rcases e1 with _ | m1
    · rcases e2 with _ | m2
      · rcases e3 with m | reply
        · left; rfl
        · rcases e4 with _ | m4
          · rcases e5 with _ | m5
            · right; right
              refine ⟨reply, ?_⟩
              show (handleSubmit ⟨none, none, .ok reply, none, none⟩ mirror s convId
                prompt).db.chat_messages = _
              unfold handleSubmit
              simp only [insertChatMessage_ok s (some convId) "user" prompt (Or.inl rfl),
                insertChatMessage_ok (msgInserted s (some convId) "user" prompt)
                  (some convId) "assistant" reply (Or.inr (Or.inl rfl))]
              rfl
            · right; left
              show (handleSubmit ⟨none, none, .ok reply, none, some m5⟩ mirror s convId
                prompt).db.chat_messages = _
              unfold handleSubmit
              simp only [insertChatMessage_ok s (some convId) "user" prompt (Or.inl rfl)]
              rfl
          · left; rfl
      · left; rfl
    · left; rfl
  intro m hm hts hrole
  rcases hdb with h | h | ⟨reply, h⟩
  · rw [h] at hm
    exact absurd (hb m hm) (Nat.not_lt.mpr hts)
  · rw [h] at hm
    rcases List.mem_append.mp hm with hold | hnew
    · exact absurd (hb m hold) (Nat.not_lt.mpr hts)
    · rcases List.mem_singleton.mp hnew with rfl
      exact absurd hrole (by simp [newMsgRow])
  · rw [h] at hm
    rcases List.mem_append.mp hm with h1 | h2
    · rcases List.mem_append.mp h1 with hold | hnew
      · exact absurd (hb m hold) (Nat.not_lt.mpr hts)
      · rcases List.mem_singleton.mp hnew with rfl
        exact absurd hrole (by simp [newMsgRow])
    · rcases List.mem_singleton.mp h2 with rfl
      refine ⟨newMsgRow s (some convId) "user" prompt, ?_, Nat.le_refl _, rfl,
        Nat.lt_succ_self _, rfl⟩
      rw [h]
      exact List.mem_append.mpr (Or.inl (List.mem_append.mpr
        (Or.inr (List.mem_singleton.mpr rfl))))

/-- Witness for C10 at a concrete input: the all-success submit persists
the assistant row with id 4, and the theorem produces the matching user
row persisted before it. -/
theorem c10_witness :
    ∃ u, u ∈ (handleSubmit envAllOk [] twoConvDB 1 "Hi2").db.chat_messages ∧
      twoConvDB.nextMsgId ≤ u.timestamp ∧ u.role = "user" ∧
      u.timestamp < ({ id := 4, role := "assistant", content := "Hello!",
                       conversation_id := some 1, timestamp := 4 } : MsgRow).timestamp ∧
      u.content = "Hi2" :=
  c10_user_persisted_before_assistant envAllOk [] twoConvDB 1 "Hi2" (by decide)
    { id := 4, role := "assistant", content := "Hello!", conversation_id := some 1,
      timestamp := 4 } (by decide) (by decide) rfl
